import Mathlib

/-!
Shallow embedding of the Twilio Media Stream → Deepgram bridge service
(`src/main.py`, class `MediaStreamHandler`), for checking the repository's
natural-language specification against the code.

Conventions used throughout:
* Python strings become `String`; a value that may be `None` becomes
  `Option String`; Python truthiness of such a value (`None` and `""` are
  falsy) is the Boolean `truthy` below.
* Python byte strings become `List Nat` with every element `< 256`.
* Python ints become `Int` or `Nat`; the timestamp floats of the transcript
  path are only ever selected, never computed with, so they are modelled
  by `Int` placeholders.
* Dicts with string keys become association lists `List (String × Nat)`
  looked up with the same default behaviour as `dict.get(k, 0)`.
-/

/-- Python truthiness of an optional string: `None` and `""` are falsy. -/
def truthy : Option String → Bool
  | none => false
  | some s => !(s == "")

/-- Python `a or b` on optional strings: yields `a` when `a` is truthy,
otherwise `b` (even when `b` is falsy). -/
def pyOr (a b : Option String) : Option String :=
  if truthy a then a else b

/-! ## Audio Transcoder (`MediaStreamHandler.mulaw_to_pcm`, main.py:387-431) -/

/-- The fixed 256-entry mu-law-to-linear table, copied verbatim from
`mulaw_table` in `mulaw_to_pcm` (main.py:390-423). -/
def mulaw_table : List Int := [
  -32124, -31100, -30076, -29052, -28028, -27004, -25980, -24956,
  -23932, -22908, -21884, -20860, -19836, -18812, -17788, -16764,
  -15996, -15484, -14972, -14460, -13948, -13436, -12924, -12412,
  -11900, -11388, -10876, -10364, -9852, -9340, -8828, -8316,
  -7932, -7676, -7420, -7164, -6908, -6652, -6396, -6140,
  -5884, -5628, -5372, -5116, -4860, -4604, -4348, -4092,
  -3900, -3772, -3644, -3516, -3388, -3260, -3132, -3004,
  -2876, -2748, -2620, -2492, -2364, -2236, -2108, -1980,
  -1884, -1820, -1756, -1692, -1628, -1564, -1500, -1436,
  -1372, -1308, -1244, -1180, -1116, -1052, -988, -924,
  -876, -844, -812, -780, -748, -716, -684, -652,
  -620, -588, -556, -524, -492, -460, -428, -396,
  -372, -356, -340, -324, -308, -292, -276, -260,
  -244, -228, -212, -196, -180, -164, -148, -132,
  -120, -112, -104, -96, -88, -80, -72, -64,
  -56, -48, -40, -32, -24, -16, -8, 0,
  32124, 31100, 30076, 29052, 28028, 27004, 25980, 24956,
  23932, 22908, 21884, 20860, 19836, 18812, 17788, 16764,
  15996, 15484, 14972, 14460, 13948, 13436, 12924, 12412,
  11900, 11388, 10876, 10364, 9852, 9340, 8828, 8316,
  7932, 7676, 7420, 7164, 6908, 6652, 6396, 6140,
  5884, 5628, 5372, 5116, 4860, 4604, 4348, 4092,
  3900, 3772, 3644, 3516, 3388, 3260, 3132, 3004,
  2876, 2748, 2620, 2492, 2364, 2236, 2108, 1980,
  1884, 1820, 1756, 1692, 1628, 1564, 1500, 1436,
  1372, 1308, 1244, 1180, 1116, 1052, 988, 924,
  876, 844, 812, 780, 748, 716, 684, 652,
  620, 588, 556, 524, 492, 460, 428, 396,
  372, 356, 340, 324, 308, 292, 276, 260,
  244, 228, 212, 196, 180, 164, 148, 132,
  120, 112, 104, 96, 88, 80, 72, 64,
  56, 48, 40, 32, 24, 16, 8, 0 ]

/-- Encoding `pcm_value.to_bytes(2, byteorder='little', signed=True)` (main.py:429):
the two-byte little-endian two's-complement encoding of a 16-bit signed
value. -/
def pcm16le (v : Int) : List Nat :=
  let u : Nat := (v % 65536).toNat
  [u % 256, u / 256]

/-- Model of `MediaStreamHandler.mulaw_to_pcm` (main.py:387-431): per input byte,
look up the table entry and append its two-byte little-endian encoding. -/
def mulaw_to_pcm (mulaw_data : List Nat) : List Nat :=
  mulaw_data.flatMap (fun b => pcm16le (mulaw_table.getD b 0))

/-! ## Speaker Attribution Tracker
(`on_deepgram_transcript`, main.py:544-575; state initialised at
main.py:274-285: `speaker_mapping = {}`, `next_speaker_index = 0`). -/

/-- The per-session attribution state held in `connection_info`:
`speaker_mapping` (Deepgram token → role, insertion-ordered) and
`next_speaker_index` (count of distinct tokens seen so far). -/
structure SpeakerState where
  speaker_mapping : List (String × String)
  next_speaker_index : Nat
deriving DecidableEq, Repr

/-- The state at session creation (main.py:274-275). -/
def initSpeakerState : SpeakerState := ⟨[], 0⟩

/-- Association-list lookup, mirroring `speaker_key in speaker_mapping` /
`speaker_mapping.get(speaker_key, 'prospect')`. -/
def alistFind (m : List (String × String)) (k : String) : Option String :=
  match m with
  | [] => none
  | (k', v) :: rest => if k = k' then some v else alistFind rest k

/-- Speaker attribution for one transcript event (main.py:492-575), for a
registered session: with no diarization token the default `"prospect"` is
used and the state is untouched; an unseen token is appended to the mapping
as `"va"` when `next_speaker_index == 0` and `"prospect"` otherwise, and the
index is incremented; a seen token reuses its stored role. Returns the
resolved role together with the updated state. -/
def assignSpeaker (tok : Option String) (st : SpeakerState) :
    String × SpeakerState :=
  match tok with
  | none => ("prospect", st)
  | some k =>
    match alistFind st.speaker_mapping k with
    | some r => (r, st)
    | none =>
      let role := if st.next_speaker_index = 0 then "va" else "prospect"
      let st' : SpeakerState :=
        ⟨st.speaker_mapping ++ [(k, role)], st.next_speaker_index + 1⟩
      (role, st')

/-- Run a sequence of transcript events (their diarization tokens) through
the attribution state. -/
def runSpeakers (st : SpeakerState) : List (Option String) → SpeakerState
  | [] => st
  | t :: ts => runSpeakers (assignSpeaker t st).2 ts

/-- The sequence of roles produced for a sequence of tokens. -/
def speakerTrace (st : SpeakerState) : List (Option String) → List String
  | [] => []
  | t :: ts =>
    let p := assignSpeaker t st
    p.1 :: speakerTrace p.2 ts

theorem alistFind_append_of_eq_some (m m' : List (String × String))
    (k : String) (r : String) (h : alistFind m k = some r) :
    alistFind (m ++ m') k = some r := by
  induction m with
  | nil => simp [alistFind] at h
  | cons hd tl ih =>
    obtain ⟨k', v⟩ := hd
    simp only [alistFind, List.cons_append] at h ⊢
    by_cases hk : k = k'
    · simpa [hk] using h
    · simp only [hk, if_false] at h ⊢
      exact ih h

theorem assignSpeaker_preserves (tok : Option String) (st : SpeakerState)
    (k : String) (r : String) (h : alistFind st.speaker_mapping k = some r) :
    alistFind (assignSpeaker tok st).2.speaker_mapping k = some r := by
  match tok with
  | none => simpa [assignSpeaker] using h
  | some k' =>
    simp only [assignSpeaker]
    cases hfind : alistFind st.speaker_mapping k' with
    | some r' => simpa using h
    | none =>
      simp only []
      exact alistFind_append_of_eq_some _ _ _ _ h

theorem runSpeakers_preserves (ts : List (Option String)) (st : SpeakerState)
    (k : String) (r : String) (h : alistFind st.speaker_mapping k = some r) :
    alistFind (runSpeakers st ts).speaker_mapping k = some r := by
  induction ts generalizing st with
  | nil => simpa [runSpeakers] using h
  | cons t ts ih =>
    simp only [runSpeakers]
    exact ih _ (assignSpeaker_preserves t st k r h)

/-- Invariant tying the index to the mapping: `next_speaker_index` counts
exactly the entries of `speaker_mapping`. -/
theorem runSpeakers_index_eq_length (ts : List (Option String))
    (st : SpeakerState)
    (h : st.next_speaker_index = st.speaker_mapping.length) :
    (runSpeakers st ts).next_speaker_index =
      (runSpeakers st ts).speaker_mapping.length := by
  induction ts generalizing st with
  | nil => simpa [runSpeakers] using h
  | cons t ts ih =>
    simp only [runSpeakers]
    apply ih
    match t with
    | none => simpa [assignSpeaker] using h
    | some k =>
      simp only [assignSpeaker]
      cases hfind : alistFind st.speaker_mapping k with
      | some r => simpa using h
      | none => simp [h]

/-! ## Session Identity Resolver (`handle_twilio_stream`)
URL query parameters: main.py:84-91; the `connected` event: main.py:112-144;
the `start` event: main.py:299-331. -/

/-- The four query parameters the handler reads from the WebSocket URL
(main.py:84-91); each is the first value of the key or `None`. -/
structure QueryParams where
  callSessionId : Option String
  callSession : Option String
  twilioCallSid : Option String
  callSid : Option String
deriving DecidableEq, Repr

/-- The identity-bearing fields of the nested `params` object of a
`connected` message (main.py:119-121). -/
structure ParamsObj where
  callSessionId : Option String
  twilioCallSid : Option String
deriving DecidableEq, Repr

/-- The identity-bearing fields of the nested `protocol` object of a
`connected` message (main.py:128-130). -/
structure ProtocolObj where
  callSessionId : Option String
  twilioCallSid : Option String
deriving DecidableEq, Repr

/-- A `connected` event message as the resolver reads it
(main.py:112-140): optional nested `params` object, direct fields, and
optional nested `protocol` object. -/
structure ConnectedEvent where
  paramsObj : Option ParamsObj
  callSessionId : Option String
  callSession : Option String
  twilioCallSid : Option String
  callSid : Option String
  protocolObj : Option ProtocolObj
deriving DecidableEq, Repr

/-- The identity-bearing fields of a `start` event message
(main.py:299-323): `data['start']['customParameters']`, `data['start']`
itself, and the top-level message. A missing `start` key or
`customParameters` key behaves as `{}` (main.py:304,307), i.e. all its
fields `None`. -/
structure StartEvent where
  customCallSessionId : Option String
  customCallSession : Option String
  startCallSessionId : Option String
  startCallSession : Option String
  directCallSessionId : Option String
  directCallSession : Option String
deriving DecidableEq, Repr

/-- Step 1 of session-id resolution (main.py:84-89): the `callSessionId`
query parameter, then — only while falsy — its alias `callSession`. -/
def resolveFromQuery (qp : QueryParams) : Option String :=
  pyOr qp.callSessionId qp.callSession

/-- Step 2 (main.py:119-130), applied to a `connected` event: each line is a
Python `cur = cur or ...` update, so a later source is read only while the
current value is falsy. Order: `params` object, direct `callSessionId` then
`callSession`, `protocol` object. -/
def resolveFromConnected (cur : Option String) (c : ConnectedEvent) :
    Option String :=
  let cur := match c.paramsObj with
    | some p => pyOr cur p.callSessionId
    | none => cur
  let cur := pyOr (pyOr cur c.callSessionId) c.callSession
  match c.protocolObj with
  | some p => pyOr cur p.callSessionId
  | none => cur

/-- Step 3 (main.py:302-315), applied to a `start` event: run only when the
current value is falsy (`if not call_session_id_ref[0]`), in which case the
reference is overwritten by the chain `customParameters.callSessionId or
customParameters.callSession or start.callSessionId or start.callSession or
data.callSessionId or data.callSession`. -/
def resolveFromStart (cur : Option String) (s : StartEvent) : Option String :=
  if truthy cur then cur
  else
    pyOr (pyOr (pyOr (pyOr (pyOr s.customCallSessionId s.customCallSession)
      s.startCallSessionId) s.startCallSession) s.directCallSessionId)
      s.directCallSession

/-- The whole session-id resolution pipeline for a connection that receives
a `connected` event and then a `start` event (either may be absent). -/
def resolveSessionId (qp : QueryParams) (c : Option ConnectedEvent)
    (s : Option StartEvent) : Option String :=
  let cur := resolveFromQuery qp
  let cur := match c with
    | some ce => resolveFromConnected cur ce
    | none => cur
  match s with
  | some se => resolveFromStart cur se
  | none => cur

/-- The session-id field of an optional nested `params` object; absent
object means absent field. -/
def paramsObjSessionId : Option ParamsObj → Option String
  | some p => p.callSessionId
  | none => none

/-- The session-id field of an optional nested `protocol` object; absent
object means absent field. -/
def protocolObjSessionId : Option ProtocolObj → Option String
  | some p => p.callSessionId
  | none => none

/-- The precedence-ordered list of the twelve session-id sources, highest
first, for a connection seeing a `connected` and then a `start` event. -/
def sessionIdSources (qp : QueryParams) (c : ConnectedEvent)
    (s : StartEvent) : List (Option String) :=
  [ qp.callSessionId, qp.callSession,
    paramsObjSessionId c.paramsObj,
    c.callSessionId, c.callSession,
    protocolObjSessionId c.protocolObj,
    s.customCallSessionId, s.customCallSession,
    s.startCallSessionId, s.startCallSession,
    s.directCallSessionId, s.directCallSession ]

theorem pyOr_of_truthy {a : Option String} (b : Option String)
    (h : truthy a = true) : pyOr a b = a := by
  simp [pyOr, h]

theorem pyOr_of_falsy {a : Option String} (b : Option String)
    (h : truthy a = false) : pyOr a b = b := by
  simp [pyOr, h]

theorem truthy_pyOr (a b : Option String) :
    truthy (pyOr a b) = (truthy a || truthy b) := by
  by_cases h : truthy a
  · simp [pyOr, h]
  · simp only [Bool.not_eq_true] at h
    simp [pyOr, h]

theorem foldl_pyOr_of_truthy (l : List (Option String)) (cur : Option String)
    (h : truthy cur = true) : l.foldl pyOr cur = cur := by
  induction l generalizing cur with
  | nil => rfl
  | cons a l ih =>
    simp only [List.foldl_cons, pyOr_of_truthy a h]
    exact ih cur h

theorem foldl_pyOr_find (l : List (Option String)) (cur : Option String)
    (x : Option String) (hc : truthy cur = false)
    (h : l.find? truthy = some x) : l.foldl pyOr cur = x := by
  induction l generalizing cur with
  | nil => simp at h
  | cons a l ih =>
    by_cases ha : truthy a
    · rw [List.find?_cons_of_pos _ ha] at h
      obtain rfl : a = x := by simpa using h
      simp only [List.foldl_cons, pyOr_of_falsy a hc]
      exact foldl_pyOr_of_truthy l a ha
    · simp only [Bool.not_eq_true] at ha
      rw [List.find?_cons_of_neg _ (by simp [ha])] at h
      simp only [List.foldl_cons, pyOr_of_falsy a hc]
      exact ih a ha h

/-- Two candidate values that are either equal or both Python-falsy behave
the same as the accumulator of any further `or` chain. -/
def equivFalsy (a b : Option String) : Prop :=
  a = b ∨ (truthy a = false ∧ truthy b = false)

theorem pyOr_congr {a a' : Option String} (b : Option String)
    (h : equivFalsy a a') : pyOr a b = pyOr a' b := by
  rcases h with rfl | ⟨ha, ha'⟩
  · rfl
  · rw [pyOr_of_falsy b ha, pyOr_of_falsy b ha']

theorem resolveFromQuery_eq_foldl (qp : QueryParams) :
    resolveFromQuery qp =
      List.foldl pyOr none [qp.callSessionId, qp.callSession] := by
  simp only [resolveFromQuery, List.foldl_cons, List.foldl_nil]
  rw [pyOr_of_falsy qp.callSessionId (by rfl)]

theorem resolveFromConnected_equivFalsy (cur : Option String)
    (c : ConnectedEvent) :
    equivFalsy (resolveFromConnected cur c)
      (List.foldl pyOr cur
        [paramsObjSessionId c.paramsObj,
         c.callSessionId, c.callSession,
         protocolObjSessionId c.protocolObj]) := by
  simp only [resolveFromConnected, List.foldl_cons, List.foldl_nil]
  cases hp : c.paramsObj with
  | some p =>
    simp only [paramsObjSessionId]
    cases hq : c.protocolObj with
    | some q => simp only [protocolObjSessionId]; left; rfl
    | none =>
      simp only [protocolObjSessionId]
      by_cases ht : truthy (pyOr (pyOr (pyOr cur p.callSessionId)
          c.callSessionId) c.callSession)
      · left; rw [pyOr_of_truthy none ht]
      · right
        simp only [Bool.not_eq_true] at ht
        exact ⟨ht, by rw [pyOr_of_falsy none ht]; rfl⟩
  | none =>
    simp only [paramsObjSessionId]
    have h1 : pyOr (pyOr cur none) c.callSessionId
        = pyOr cur c.callSessionId := by
      apply pyOr_congr
      by_cases ht : truthy cur
      · left; rw [pyOr_of_truthy none ht]
      · right
        simp only [Bool.not_eq_true] at ht
        exact ⟨by rw [pyOr_of_falsy none ht]; rfl, ht⟩
    rw [h1]
    cases hq : c.protocolObj with
    | some q => simp only [protocolObjSessionId]; left; rfl
    | none =>
      simp only [protocolObjSessionId]
      by_cases ht : truthy (pyOr (pyOr cur c.callSessionId) c.callSession)
      · left; rw [pyOr_of_truthy none ht]
      · right
        simp only [Bool.not_eq_true] at ht
        exact ⟨ht, by rw [pyOr_of_falsy none ht]; rfl⟩

theorem resolveFromStart_eq_foldl (cur cur' : Option String) (s : StartEvent)
    (h : equivFalsy cur cur') :
    resolveFromStart cur s =
      List.foldl pyOr cur'
        [s.customCallSessionId, s.customCallSession,
         s.startCallSessionId, s.startCallSession,
         s.directCallSessionId, s.directCallSession] := by
  rcases h with rfl | ⟨hc, hc'⟩
  · by_cases ht : truthy cur
    · rw [foldl_pyOr_of_truthy _ cur ht]
      simp [resolveFromStart, ht]
    · simp only [Bool.not_eq_true] at ht
      simp only [resolveFromStart, ht, Bool.false_eq_true, if_false,
        List.foldl_cons, List.foldl_nil, pyOr_of_falsy _ ht]
  · simp only [resolveFromStart, hc, Bool.false_eq_true, if_false,
      List.foldl_cons, List.foldl_nil, pyOr_of_falsy _ hc,
      pyOr_of_falsy _ hc']

theorem resolveSessionId_eq_foldl (qp : QueryParams) (c : ConnectedEvent)
    (s : StartEvent) :
    resolveSessionId qp (some c) (some s) =
      List.foldl pyOr none (sessionIdSources qp c s) := by
  have hsrc : sessionIdSources qp c s =
      [qp.callSessionId, qp.callSession] ++
      [paramsObjSessionId c.paramsObj,
       c.callSessionId, c.callSession,
       protocolObjSessionId c.protocolObj] ++
      [s.customCallSessionId, s.customCallSession,
       s.startCallSessionId, s.startCallSession,
       s.directCallSessionId, s.directCallSession] := by
    simp [sessionIdSources]
  rw [hsrc, List.foldl_append, List.foldl_append,
    ← resolveFromQuery_eq_foldl qp]
  simp only [resolveSessionId]
  exact resolveFromStart_eq_foldl _ _ s
    (resolveFromConnected_equivFalsy (resolveFromQuery qp) c)

/-- C1: session identity resolution obeys the fixed precedence order over
URL query parameters, the `connected` event payload and the `start` event
payload: whenever some source in the precedence-ordered list holds a truthy
(present, non-empty) value, the resolved session id is exactly the value of
the highest-precedence such source; later sources are consulted only while
the id is still unresolved. -/
theorem C1_identity_resolution_precedence (qp : QueryParams)
    (c : ConnectedEvent) (s : StartEvent) (x : Option String)
    (h : (sessionIdSources qp c s).find? truthy = some x) :
    resolveSessionId qp (some c) (some s) = x := by
  rw [resolveSessionId_eq_foldl]
  exact foldl_pyOr_find _ none x rfl h

/-- Witness for C1: with no query parameters, a `connected` event carrying
only the direct `callSession` alias, and a `start` event carrying a
lower-precedence `customParameters.callSessionId`, resolution returns the
`connected` event's value. -/
theorem C1_identity_resolution_precedence_witness :
    (sessionIdSources ⟨none, none, none, none⟩
        ⟨none, none, some "abc", none, none, none⟩
        ⟨some "zzz", none, none, none, none, none⟩).find? truthy =
      some (some "abc") ∧
    resolveSessionId ⟨none, none, none, none⟩
        (some ⟨none, none, some "abc", none, none, none⟩)
        (some ⟨some "zzz", none, none, none, none, none⟩) = some "abc" :=
  ⟨by decide, C1_identity_resolution_precedence _ _ _ _ (by decide)⟩

/-- C2: speaker attribution. (1) an event with no diarization token
attributes to `"prospect"` and leaves the state unchanged; (2) starting from
the session's initial state, an unseen token attributes to `"va"` exactly
when no token has been mapped yet, else to `"prospect"`; (3) a seen token
reuses the stored mapping unchanged; (4) a stored mapping survives any
further sequence of events; (5) the token sequence A,B,A,C from the initial
state yields the roles va, prospect, va, prospect. -/
theorem C2_speaker_attribution :
    (∀ st : SpeakerState, assignSpeaker none st = ("prospect", st)) ∧
    (∀ (ts : List (Option String)) (k : String),
      alistFind (runSpeakers initSpeakerState ts).speaker_mapping k = none →
      (assignSpeaker (some k) (runSpeakers initSpeakerState ts)).1 =
        if (runSpeakers initSpeakerState ts).speaker_mapping = [] then "va"
        else "prospect") ∧
    (∀ (st : SpeakerState) (k r : String),
      alistFind st.speaker_mapping k = some r →
      assignSpeaker (some k) st = (r, st)) ∧
    (∀ (st : SpeakerState) (k r : String) (ts : List (Option String)),
      alistFind st.speaker_mapping k = some r →
      alistFind (runSpeakers st ts).speaker_mapping k = some r) ∧
    speakerTrace initSpeakerState [some "A", some "B", some "A", some "C"] =
      ["va", "prospect", "va", "prospect"] := by
  refine ⟨fun st => rfl, ?_, ?_, ?_, by decide⟩
  · intro ts k h
    have hlen := runSpeakers_index_eq_length ts initSpeakerState rfl
    simp only [assignSpeaker, h, hlen]
    by_cases hm : (runSpeakers initSpeakerState ts).speaker_mapping = []
    · simp [hm]
    · have : (runSpeakers initSpeakerState ts).speaker_mapping.length ≠ 0 := by
        simpa [List.length_eq_zero] using hm
      simp [hm, this]
  · intro st k r h
    simp [assignSpeaker, h]
  · intro st k r ts h
    exact runSpeakers_preserves ts st k r h

/-- Witness for C2: after seeing token A, the unseen token B maps to
`"prospect"`, by the second conjunct of the attribution theorem. -/
theorem C2_speaker_attribution_witness :
    alistFind (runSpeakers initSpeakerState [some "A"]).speaker_mapping "B" =
      none ∧
    (assignSpeaker (some "B") (runSpeakers initSpeakerState [some "A"])).1 =
      "prospect" := by
  refine ⟨by decide, ?_⟩
  rw [C2_speaker_attribution.2.1 [some "A"] "B" (by decide)]
  decide

/-- C4: mu-law transcoding contract. For every byte sequence (values below
256) the output has exactly twice the length, and the bytes at positions
`2*i` and `2*i+1` are the two-byte little-endian signed encoding of the
table entry selected by input byte `i`. -/
theorem C4_mulaw_transcoding (input : List Nat)
    (h : ∀ b ∈ input, b < 256) :
    (mulaw_to_pcm input).length = 2 * input.length ∧
    ∀ i, i < input.length →
      (mulaw_to_pcm input).getD (2 * i) 0 =
        (pcm16le (mulaw_table.getD (input.getD i 0) 0)).getD 0 0 ∧
      (mulaw_to_pcm input).getD (2 * i + 1) 0 =
        (pcm16le (mulaw_table.getD (input.getD i 0) 0)).getD 1 0 := by
  clear h
  induction input with
  | nil => exact ⟨rfl, fun i hi => absurd hi (Nat.not_lt_zero i)⟩
  | cons b rest ih =>
    have hunf : mulaw_to_pcm (b :: rest) =
        ((mulaw_table.getD b 0 % 65536).toNat % 256) ::
        ((mulaw_table.getD b 0 % 65536).toNat / 256) ::
        mulaw_to_pcm rest := by
      simp [mulaw_to_pcm, pcm16le]
    constructor
    · rw [hunf]
      simp only [List.length_cons, ih.1, List.length_cons]
      omega
    · intro i hi
      match i with
      | 0 => exact ⟨rfl, rfl⟩
      | Nat.succ j =>
        have hj : j < rest.length := Nat.lt_of_succ_lt_succ hi
        have hrec := ih.2 j hj
        have h2 : 2 * (j + 1) = (2 * j + 1) + 1 := by ring
        constructor
        · rw [hunf, h2, List.getD_cons_succ, List.getD_cons_succ]
          exact hrec.1
        · rw [hunf, h2, List.getD_cons_succ, List.getD_cons_succ]
          exact hrec.2

/-- Witness for C4: the three-byte input `[0, 255, 127]` satisfies the byte
bound and transcodes to a six-byte output. -/
theorem C4_mulaw_transcoding_witness :
    (∀ b ∈ ([0, 255, 127] : List Nat), b < 256) ∧
    (mulaw_to_pcm [0, 255, 127]).length = 2 * ([0, 255, 127] : List Nat).length :=
  ⟨by decide, (C4_mulaw_transcoding [0, 255, 127] (by decide)).1⟩

/-- Counterexample for C9: the lookup table is not injective — the entries
at the distinct indices 127 and 255 are both `0` (mu-law has a positive and
a negative zero, both decoding to linear 0). -/
theorem C9_mulaw_table_not_injective :
    mulaw_table.getD 127 0 = mulaw_table.getD 255 0 ∧ (127 : Nat) ≠ 255 :=
  ⟨by decide, by decide⟩

set_option maxRecDepth 10000 in
set_option maxHeartbeats 2000000 in
/-- C9 (amended): the 256-entry table is pairwise distinct except for the
single collision of indices 127 and 255: the first 255 entries are pairwise
distinct, and the final entry repeats the value 0 of entry 127. -/
theorem C9_mulaw_table_injective_except_zero :
    (mulaw_table.take 255).Nodup ∧
    mulaw_table.getD 127 0 = 0 ∧
    mulaw_table.getD 255 0 = 0 ∧
    mulaw_table.length = 256 := by
  refine ⟨by decide, by decide, by decide, by decide⟩

/-! ## Transcript Bridge: timestamp extraction
(`on_deepgram_transcript`, main.py:582-612). -/

/-- One candidate timestamp attribute of a Deepgram result object:
`absent` — the object has no such attribute (`hasattr` is false);
`unusable` — the attribute exists but holds no usable numeric value
(`None`, a bound method, or a value `float()` rejects — the cases the code
guards for at main.py:588-591, 600-601 and 607-608, all of which leave the
timestamp at `0.0`); `val x` — the attribute holds a numeric value.
The extraction only selects values, never computes with them, so the float
is represented by an `Int` placeholder. -/
inductive TsAttr
  | absent
  | unusable
  | val (x : Int)
deriving DecidableEq, Repr

/-- The five timestamp sources of a transcript result, in the order the
code probes them (main.py:587-609): `result.start`, `result.start_time`,
`result.message_ts`, `channel.alternatives[0].start` and
`channel.alternatives[0].words[0].start`.  When the result has no channel,
no alternatives or no words, the corresponding nested fields are
`absent`. -/
structure TsSource where
  start : TsAttr
  start_time : TsAttr
  message_ts : TsAttr
  altStart : TsAttr
  wordStart : TsAttr
deriving DecidableEq, Repr

/-- The numeric value of an attribute, `0` when it has none — the net
effect of each guarded branch of the code (an unusable attribute either
skips the assignment or raises inside the surrounding `try`, and both leave
`timestamp = 0.0`). -/
def valueOr0 : TsAttr → Int
  | .val x => x
  | _ => 0

/-- The timestamp extraction chain of `on_deepgram_transcript`
(main.py:584-612).  The `if`/`elif` chain selects the first source whose
attribute exists (`hasattr`), and yields that source's value when usable
and `0.0` otherwise; later sources are not consulted once an attribute
exists. -/
def extract_timestamp (r : TsSource) : Int :=
  match r.start with
  | .absent =>
    match r.start_time with
    | .absent =>
      match r.message_ts with
      | .absent =>
        match r.altStart with
        | .absent =>
          match r.wordStart with
          | .absent => 0
          | a => valueOr0 a
        | a => valueOr0 a
      | a => valueOr0 a
    | a => valueOr0 a
  | a => valueOr0 a

/-- The precedence-ordered source list of a result. -/
def tsSources (r : TsSource) : List TsAttr :=
  [r.start, r.start_time, r.message_ts, r.altStart, r.wordStart]

/-- The chain exactly as the specification words it ("taken from the first
available source … zero if none of these is present"): the value of the
first source that has one, zero when none has a value. -/
def specTimestampChain (r : TsSource) : Int :=
  match (tsSources r).findSome?
      (fun a => match a with | TsAttr.val x => some x | _ => none) with
  | some x => x
  | none => 0

/-- Whether an attribute exists on the object (`hasattr`). -/
def presentAttr (a : TsAttr) : Bool := a != TsAttr.absent

/-- The chain the code actually implements: select the first source whose
attribute exists, then use its value if usable and zero otherwise. -/
def presenceTimestampChain (r : TsSource) : Int :=
  match (tsSources r).find? presentAttr with
  | some a => valueOr0 a
  | none => 0

/-- Counterexample for C7: a result whose `start` attribute exists but is
unusable (e.g. holds `None`) while `start_time` holds 5 extracts timestamp
0, not the 5 that the first *available* source in the claimed fallback
chain would give. -/
theorem C7_timestamp_fallback_counterexample :
    extract_timestamp ⟨.unusable, .val 5, .absent, .absent, .absent⟩ = 0 ∧
    specTimestampChain ⟨.unusable, .val 5, .absent, .absent, .absent⟩ = 5 ∧
    (0 : Int) ≠ 5 :=
  ⟨rfl, rfl, by decide⟩

/-- C7 (amended): the extracted timestamp is decided by the first source
whose *attribute exists*, in the claimed order — its value when usable and
zero otherwise (zero also when no attribute exists at all); when every
existing attribute actually holds a value, this coincides with the claimed
"first available source" chain. -/
theorem C7_timestamp_presence_chain :
    (∀ r : TsSource, extract_timestamp r = presenceTimestampChain r) ∧
    (∀ r : TsSource, (∀ a ∈ tsSources r, a ≠ TsAttr.unusable) →
      extract_timestamp r = specTimestampChain r) := by
  constructor
  · intro r
    obtain ⟨f1, f2, f3, f4, f5⟩ := r
    cases f1 <;> cases f2 <;> cases f3 <;> cases f4 <;> cases f5 <;> rfl
  · intro r h
    obtain ⟨f1, f2, f3, f4, f5⟩ := r
    simp only [tsSources, List.mem_cons, List.not_mem_nil, or_false,
      forall_eq_or_imp, forall_eq] at h
    obtain ⟨h1, h2, h3, h4, h5⟩ := h
    cases f1 <;> cases f2 <;> cases f3 <;> cases f4 <;> cases f5 <;>
      first
        | rfl
        | exact absurd rfl h1
        | exact absurd rfl h2
        | exact absurd rfl h3
        | exact absurd rfl h4
        | exact absurd rfl h5

/-- Witness for C7 (amended): on a result whose only existing attribute is
a usable `start`, the code chain and the claimed chain agree. -/
theorem C7_timestamp_presence_chain_witness :
    (∀ a ∈ tsSources ⟨.val 3, .absent, .absent, .absent, .absent⟩,
      a ≠ TsAttr.unusable) ∧
    extract_timestamp ⟨.val 3, .absent, .absent, .absent, .absent⟩ =
      specTimestampChain ⟨.val 3, .absent, .absent, .absent, .absent⟩ :=
  ⟨by decide, C7_timestamp_presence_chain.2
    ⟨.val 3, .absent, .absent, .absent, .absent⟩ (by decide)⟩

/-! ## Delivery Client (`send_to_laravel`, main.py:621-695) -/

/-- Lookup in the `speaker_stats` dict with default 0
(`speaker_stats.get(speaker, 0)`). -/
def statsGet (m : List (String × Nat)) (k : String) : Nat :=
  match m with
  | [] => 0
  | (k', v) :: rest => if k = k' then v else statsGet rest k

/-- Python dict assignment `m[k] = v`: replace in place, else append. -/
def statsSet (m : List (String × Nat)) (k : String) (v : Nat) :
    List (String × Nat) :=
  match m with
  | [] => [(k, v)]
  | (k', v') :: rest =>
    if k = k' then (k, v) :: rest else (k', v') :: statsSet rest k v

/-- The dict `{'va': 0, 'prospect': 0, 'system': 0}` installed when a
session has no `speaker_stats` yet (main.py:658-659). -/
def initSpeakerStats : List (String × Nat) :=
  [("va", 0), ("prospect", 0), ("system", 0)]

/-- The observable outcome of one `send_to_laravel` call: whether an HTTP
POST was issued (and how many), whether a delivery failure was logged via
`logger.error`, the session's `speaker_stats` afterwards (`none` when the
session has none), and whether the call tore the session down. -/
structure DeliveryOutcome where
  posted : Bool
  attempts : Nat
  loggedError : Bool
  statsAfter : Option (List (String × Nat))
  sessionTerminated : Bool
deriving DecidableEq, Repr

/-- Model of `send_to_laravel` (main.py:621-695).  With `call_session_id` falsy: return
before any request (main.py:623-625), a warning only.  Otherwise exactly one
POST is made; `response` is `some status` for an HTTP response and `none`
for a timeout or transport error (main.py:690-695).  Status 201: success —
for a registered session the per-role counter is bumped, initialising the
stats dict first if absent (main.py:652-661); no error is logged.  Any
other status, and any timeout/transport error, is logged as an error and
changes nothing (main.py:679-695).  Every branch returns normally: the
session is never terminated by delivery. -/
def send_to_laravel (call_session_id : Option String) (speaker : String)
    (response : Option Nat) (registered : Bool)
    (stats : Option (List (String × Nat))) : DeliveryOutcome :=
  if truthy call_session_id then
    if response = some 201 then
      if registered then
        let base := stats.getD initSpeakerStats
        ⟨true, 1, false,
          some (statsSet base speaker (statsGet base speaker + 1)), false⟩
      else ⟨true, 1, false, stats, false⟩
    else ⟨true, 1, true, stats, false⟩
  else ⟨false, 0, false, stats, false⟩

theorem statsGet_statsSet_self (m : List (String × Nat)) (k : String)
    (v : Nat) : statsGet (statsSet m k v) k = v := by
  induction m with
  | nil => simp [statsGet, statsSet]
  | cons hd rest ih =>
    obtain ⟨k', v'⟩ := hd
    by_cases hk : k = k'
    · simp [statsGet, statsSet, hk]
    · simp [statsGet, statsSet, hk, ih]

theorem statsGet_statsSet_other (m : List (String × Nat)) (k k' : String)
    (v : Nat) (hne : k' ≠ k) :
    statsGet (statsSet m k v) k' = statsGet m k' := by
  induction m with
  | nil => simp [statsGet, statsSet, hne]
  | cons hd rest ih =>
    obtain ⟨k'', v''⟩ := hd
    by_cases hk : k = k''
    · subst hk
      simp [statsGet, statsSet, hne]
    · by_cases hk' : k' = k''
      · simp [statsGet, statsSet, hk, hk']
      · simp [statsGet, statsSet, hk, hk', ih]

/-- C3: delivery outcome classification, for any delivery with a truthy
session id.  Exactly one POST is issued and the session survives; exactly a
201 response counts as success — it logs no error and, for a registered
session, bumps that role's counter by one leaving every other role
unchanged; every other response (401, 422, any other status, or no response
at all) is logged as a failure and leaves the statistics untouched. -/
theorem C3_delivery_outcome (sid : Option String) (speaker : String)
    (response : Option Nat) (registered : Bool)
    (stats : Option (List (String × Nat))) (hsid : truthy sid = true) :
    (send_to_laravel sid speaker response registered stats).attempts = 1 ∧
    (send_to_laravel sid speaker response registered stats).posted = true ∧
    (send_to_laravel sid speaker response registered
      stats).sessionTerminated = false ∧
    (response = some 201 →
      (send_to_laravel sid speaker response registered
        stats).loggedError = false ∧
      (registered = true →
        statsGet ((send_to_laravel sid speaker response registered
            stats).statsAfter.getD []) speaker =
          statsGet (stats.getD initSpeakerStats) speaker + 1 ∧
        ∀ k, k ≠ speaker →
          statsGet ((send_to_laravel sid speaker response registered
              stats).statsAfter.getD []) k =
            statsGet (stats.getD initSpeakerStats) k)) ∧
    (response ≠ some 201 →
      (send_to_laravel sid speaker response registered
        stats).loggedError = true ∧
      (send_to_laravel sid speaker response registered
        stats).statsAfter = stats) := by
  refine ⟨?_, ?_, ?_, ?_, ?_⟩
  · by_cases hr : response = some 201 <;> cases registered <;>
      simp [send_to_laravel, hsid, hr]
  · by_cases hr : response = some 201 <;> cases registered <;>
      simp [send_to_laravel, hsid, hr]
  · by_cases hr : response = some 201 <;> cases registered <;>
      simp [send_to_laravel, hsid, hr]
  · intro hr
    subst hr
    cases registered
    · simp [send_to_laravel, hsid]
    · refine ⟨by simp [send_to_laravel, hsid], fun _ => ⟨?_, ?_⟩⟩
      · simp [send_to_laravel, hsid, statsGet_statsSet_self]
      · intro k hk
        simp [send_to_laravel, hsid, statsGet_statsSet_other _ _ _ _ hk]
  · intro hr
    exact ⟨by simp [send_to_laravel, hsid, hr], by simp [send_to_laravel, hsid, hr]⟩

/-- Witness for C3: a delivery for session `"s1"` with a 201 response,
registered, bumps the `"va"` counter from 2 to 3. -/
theorem C3_delivery_outcome_witness :
    truthy (some "s1") = true ∧
    (send_to_laravel (some "s1") "va" (some 201) true
      (some [("va", 2), ("prospect", 5)])).attempts = 1 :=
  ⟨by decide, (C3_delivery_outcome (some "s1") "va" (some 201) true
    (some [("va", 2), ("prospect", 5)]) (by decide)).1⟩

/-! ## Degraded mode without identity
(`transcript_handler`, main.py:185-200; `send_to_laravel` guard,
main.py:623-625). -/

/-- Model of `transcript_handler` (main.py:185-200): the Deepgram callback reads the
shared `call_session_id_ref`; only when it is truthy does it schedule
`on_deepgram_transcript` (which performs text extraction, attribution and
delivery) on the event loop.  Otherwise it logs a warning and schedules
nothing. -/
def transcript_handler_schedules (call_session_id : Option String) : Bool :=
  truthy call_session_id

/-- Counterexample for C8: with the session id unresolved the callback
schedules no processing at all — text extraction and attribution do NOT
run, contradicting the claim that transcripts "are still computed".  (They
are indeed never delivered: no POST is issued either.) -/
theorem C8_degraded_mode_counterexample :
    transcript_handler_schedules none = false ∧
    (send_to_laravel none "va" (some 201) true none).posted = false :=
  ⟨rfl, rfl⟩

/-- C8 (amended): for a connection whose session id is never resolved
(`None` or empty), transcript events are dropped inside the callback before
any extraction or attribution runs, and no HTTP POST with an empty or
missing session id ever occurs — both the callback and `send_to_laravel`
independently guard on a truthy session id. -/
theorem C8_degraded_mode (sid : Option String) (hsid : truthy sid = false) :
    transcript_handler_schedules sid = false ∧
    ∀ speaker response registered stats,
      (send_to_laravel sid speaker response registered stats).posted = false ∧
      (send_to_laravel sid speaker response registered stats).attempts = 0 ∧
      (send_to_laravel sid speaker response registered
        stats).statsAfter = stats := by
  refine ⟨hsid, fun speaker response registered stats => ?_⟩
  simp only [send_to_laravel, hsid, if_pos rfl]
  exact ⟨rfl, rfl, rfl⟩

/-- Witness for C8 (amended): the empty-string session id is falsy and
leads to no POST. -/
theorem C8_degraded_mode_witness :
    truthy (some "") = false ∧
    transcript_handler_schedules (some "") = false :=
  ⟨by decide, (C8_degraded_mode (some "") (by decide)).1⟩

/-! ## Media loop (`handle_twilio_stream` message loop, main.py:292-365) -/

/-- The media payload situation of a structured message:
no `media.payload` key or a falsy payload (main.py:340, 358-359);
a payload whose base64 decoding raises (main.py:342-357); or a payload that
decodes to the given mu-law bytes. -/
inductive MediaPayload
  | missing
  | undecodable
  | audio (bytes : List Nat)
deriving DecidableEq, Repr

/-- One inbound WebSocket message as the loop sees it: a non-text frame
(skipped by the `isinstance(message, str)` check, main.py:293), invalid
JSON (main.py:360-362), or a parsed object with an optional `event` field
and a media payload situation. -/
inductive TwilioMessage
  | binaryFrame
  | invalidJson
  | eventMsg (event : Option String) (payload : MediaPayload)
deriving DecidableEq, Repr

/-- The per-connection state the media loop mutates: the
`connection_info['media_count']` counter and the list of PCM frames
forwarded to the Deepgram connection; `dgAvailable` is the truthiness of
`deepgram_connection` at send time (main.py:348-354). -/
structure ConnState where
  media_count : Nat
  dgAvailable : Bool
  sentFrames : List (List Nat)
deriving DecidableEq, Repr

/-- One iteration of the message loop (main.py:292-365), restricted to its
media handling: for an `event == 'media'` message the counter is bumped
first (main.py:339); then, only if a payload is present and decodes, the
decoded bytes are transcoded and sent to Deepgram when the connection is
available.  Every other message leaves the state unchanged (the `start`
branch touches only identity, not this state). -/
def processMessage (st : ConnState) (msg : TwilioMessage) : ConnState :=
  match msg with
  | .binaryFrame => st
  | .invalidJson => st
  | .eventMsg ev payload =>
    if ev = some "media" then
      let st1 : ConnState := ⟨st.media_count + 1, st.dgAvailable, st.sentFrames⟩
      match payload with
      | .audio bytes =>
        if st1.dgAvailable then
          ⟨st1.media_count, st1.dgAvailable,
            st1.sentFrames ++ [mulaw_to_pcm bytes]⟩
        else st1
      | _ => st1
    else st

/-- Whether a message is a parsed JSON object whose `event` field is
`'media'`. -/
def isMediaEvent : TwilioMessage → Bool
  | .eventMsg ev _ => ev = some "media"
  | _ => false

/-- C10: the per-session media counter counts received `media` events, not
successfully processed audio frames: every message whose event type is
`media` — whether its payload is absent, fails to decode, or is never
forwarded because the transcription connection is unavailable — increments
`media_count` by exactly one, and every other message leaves it
unchanged. -/
theorem C10_media_counter (st : ConnState) (msg : TwilioMessage) :
    (processMessage st msg).media_count =
      st.media_count + (if isMediaEvent msg then 1 else 0) := by
  match msg with
  | .binaryFrame => simp [processMessage, isMediaEvent]
  | .invalidJson => simp [processMessage, isMediaEvent]
  | .eventMsg ev payload =>
    by_cases hev : ev = some "media"
    · subst hev
      match payload with
      | .missing => simp [processMessage, isMediaEvent]
      | .undecodable => simp [processMessage, isMediaEvent]
      | .audio bytes =>
        cases hdg : st.dgAvailable <;>
          simp [processMessage, isMediaEvent, hdg]
    · simp [processMessage, isMediaEvent, hev]

/-! ## Transcript ordering across the callback boundary
(`transcript_handler`, main.py:185-198; `on_deepgram_transcript` +
`send_to_laravel`, main.py:437-695).

The Deepgram SDK invokes `transcript_handler` from its own thread, once per
transcript event, in emission order; each invocation schedules one
independent coroutine on the session's event loop via
`asyncio.run_coroutine_threadsafe` (main.py:196), whose underlying
`call_soon_threadsafe` callbacks run in FIFO order — so the coroutines
*begin* in emission order.  Each coroutine, however, suspends at `await`
points inside `send_to_laravel` (client-session setup and the HTTP POST,
main.py:650-651) before its delivery takes effect, and nothing serialises
the coroutines of one session.  A trace of the loop is therefore any
interleaving in which the starts are FIFO and each event's POST follows its
start. -/

/-- An observable action of the session's event loop: the coroutine
scheduled for transcript event `k` begins running, or event `k`'s HTTP POST
takes effect. -/
inductive LoopAct
  | taskBegin (k : Nat)
  | taskPost (k : Nat)
deriving DecidableEq, Repr

/-- The sequence of coroutine starts in a trace. -/
def beginsOf (tr : List LoopAct) : List Nat :=
  tr.filterMap (fun a => match a with | .taskBegin k => some k | _ => none)

/-- The sequence of delivered POSTs in a trace. -/
def postsOf (tr : List LoopAct) : List Nat :=
  tr.filterMap (fun a => match a with | .taskPost k => some k | _ => none)

/-- Whether event `k`'s POST occurs after its coroutine begins. -/
def postAfterBegin (tr : List LoopAct) (k : Nat) : Bool :=
  tr.indexOf (LoopAct.taskBegin k) < tr.indexOf (LoopAct.taskPost k)

/-- A possible execution trace of the loop for `n` transcript events of one
session: the coroutines begin in FIFO emission order (the
`run_coroutine_threadsafe` guarantee), and each event posts exactly once,
after its coroutine has begun.  Nothing in the bridge constrains the
interleaving further. -/
def validTrace (n : Nat) (tr : List LoopAct) : Bool :=
  (beginsOf tr == List.range n) &&
  (postsOf tr).length == n &&
  (List.range n).all (fun k => ((postsOf tr).count k == 1) && postAfterBegin tr k)

/-- Counterexample for C5: it is not the case that every possible trace
delivers the POSTs in emission order — the trace in which event 1's POST
completes while event 0 is still suspended is valid, and the Delivery
Client observes 1 before 0. -/
theorem C5_ordering_counterexample :
    ¬ (∀ tr : List LoopAct, validTrace 2 tr = true → postsOf tr = [0, 1]) := by
  intro h
  have hc := h [LoopAct.taskBegin 0, LoopAct.taskBegin 1,
    LoopAct.taskPost 1, LoopAct.taskPost 0] (by decide)
  exact absurd hc (by decide)

/-- C5 (amended): for one session the bridge starts the per-event
processing coroutines in exactly the order the provider emitted the events
(the FIFO hand-off of `run_coroutine_threadsafe`), but it does not
serialise their deliveries: there exists a valid trace of two events whose
POSTs reach the Delivery Client out of emission order. -/
theorem C5_ordering :
    (∀ (n : Nat) (tr : List LoopAct), validTrace n tr = true →
      beginsOf tr = List.range n) ∧
    (∃ tr : List LoopAct, validTrace 2 tr = true ∧ postsOf tr = [1, 0]) := by
  constructor
  · intro n tr h
    simp only [validTrace, Bool.and_eq_true, beq_iff_eq] at h
    exact h.1.1
  · exact ⟨[LoopAct.taskBegin 0, LoopAct.taskBegin 1,
      LoopAct.taskPost 1, LoopAct.taskPost 0], by decide, by decide⟩

/-- Witness for C5 (amended): the out-of-order trace itself begins its
coroutines in FIFO order. -/
theorem C5_ordering_witness :
    validTrace 2 [LoopAct.taskBegin 0, LoopAct.taskBegin 1,
      LoopAct.taskPost 1, LoopAct.taskPost 0] = true ∧
    beginsOf [LoopAct.taskBegin 0, LoopAct.taskBegin 1,
      LoopAct.taskPost 1, LoopAct.taskPost 0] = List.range 2 :=
  ⟨by decide, C5_ordering.1 2 [LoopAct.taskBegin 0, LoopAct.taskBegin 1,
      LoopAct.taskPost 1, LoopAct.taskPost 0] (by decide)⟩

/-! ## Session teardown
(`handle_twilio_stream` finally block, main.py:373-385; `signal_handler`,
main.py:735-747; `main` finally sweep, main.py:754-762). -/

/-- The three exit paths of a session the specification names: the inbound
connection closing gracefully (`ConnectionClosedOK`, main.py:367), an error
mid-stream (main.py:369-372), and process shutdown by SIGTERM/SIGINT. -/
inductive ExitPath
  | graceful
  | errorMidStream
  | shutdownSignal
deriving DecidableEq, Repr

/-- How many times the session's Deepgram connection receives `finish()` on
a given exit path, for a session whose connection was created
(`hasDeepgram`) and that is registered in `active_streams` (`registered`).
On every path the handler's `finally` block calls `finish()` once when the
connection exists (main.py:376-378).  On the shutdown path,
`signal_handler` has additionally already called `finish()` on every
registered stream (main.py:738-742) without deregistering it, so the
connection of a registered session is finished a second time when the
closing WebSocket unwinds the handler into its `finally` block. -/
def finishCalls (p : ExitPath) (hasDeepgram : Bool) (registered : Bool) :
    Nat :=
  (match p with
   | ExitPath.shutdownSignal => if registered then 1 else 0
   | _ => 0) +
  (if hasDeepgram then 1 else 0)

/-- Whether the session ends up removed from `active_streams`: the
handler's `finally` block pops it whenever it was registered
(main.py:383-385); the `main` sweep (main.py:756-762) pops any remaining
entry, so a registered session is deregistered exactly once on every
path. -/
def removedFromRegistry (p : ExitPath) (registered : Bool) : Bool :=
  registered

/-- Counterexample for C6: on the process-shutdown path a registered
session's transcription connection receives `finish()` twice — once from
`signal_handler` and once from the handler's `finally` block — not exactly
once. -/
theorem C6_teardown_counterexample :
    finishCalls ExitPath.shutdownSignal true true = 2 ∧ (2 : Nat) ≠ 1 :=
  ⟨rfl, by decide⟩

/-- C6 (amended): on every exit path a session whose transcription
connection was created has `finish()` called at least once and, when
registered, is removed from the registry; on the graceful-close and
error paths the call happens exactly once, while on the shutdown path a
registered session's connection is finished twice (signal handler plus
per-connection cleanup). -/
theorem C6_teardown :
    (∀ (p : ExitPath) (reg : Bool), 1 ≤ finishCalls p true reg) ∧
    (∀ reg : Bool, finishCalls ExitPath.graceful true reg = 1) ∧
    (∀ reg : Bool, finishCalls ExitPath.errorMidStream true reg = 1) ∧
    finishCalls ExitPath.shutdownSignal true true = 2 ∧
    finishCalls ExitPath.shutdownSignal true false = 1 ∧
    (∀ (p : ExitPath) (reg : Bool), removedFromRegistry p reg = reg) := by
  refine ⟨fun p reg => ?_, fun reg => rfl, fun reg => rfl, rfl, rfl,
    fun p reg => rfl⟩
  cases p <;> cases reg <;> decide
